import Mathlib

/-!
Verification development for the GetCGroupWithGo repository.

The repository contains two Go programs sharing the same cgroup-inspection
logic:
  * `main.go` (the "Web" variant): an HTTP server that detects the cgroup
    version and parses CPU quota/period/shares/weight into a `CgroupInfo`
    record.
  * the CLI variant (second `package main` file): detects the version,
    resolves `/proc/self/cgroup` paths into a controller-path map, parses
    `cpu.max`, and samples cumulative CPU usage twice to derive core
    utilization.

We shallowly embed the pure logic of both programs.  The filesystem is
modelled as a function `String → Option String` (the result of
`ioutil.ReadFile`: `none` = read error) and, for the `os.Stat`-based
version detection, as a predicate `String → Bool` (`true` = stat
succeeded).  Go `float64` arithmetic on quota/period/usage values is
modelled with exact rationals `ℚ`; Go `uint64` subtraction is modelled as
subtraction modulo `2^64` on `ℕ`.
-/

/-- A read-only filesystem: path to file contents, `none` when the read
fails (missing file or I/O error), mirroring `ioutil.ReadFile`. -/
abbrev FS := String → Option String

/-- Go `unicode.IsSpace` restricted to the code points the White_Space
property contains (the cgroup files at issue only ever hold ASCII). -/
def goIsSpace (c : Char) : Bool :=
  c = ' ' || c = '\t' || c = '\n' || c = '\x0b' || c = '\x0c' || c = '\r' ||
  c = '\x85' || c = '\xa0' || c = '\u1680' ||
  ('\u2000' ≤ c && c ≤ '\u200a') || c = '\u2028' || c = '\u2029' ||
  c = '\u202f' || c = '\u205f' || c = '\u3000'

/-- Go `strings.TrimSpace` on a character list: drop leading and trailing
whitespace. -/
def goTrimSpaceList (cs : List Char) : List Char :=
  ((cs.dropWhile goIsSpace).reverse.dropWhile goIsSpace).reverse

/-- Go `strings.TrimSpace`. -/
def goTrimSpace (s : String) : String :=
  String.mk (goTrimSpaceList s.toList)

/-- Worker for `goFields`: `acc` holds the current field reversed. -/
def goFieldsAux : List Char → List Char → List (List Char)
  | [], [] => []
  | [], acc => [acc.reverse]
  | c :: cs, acc =>
    if goIsSpace c then
      match acc with
      | [] => goFieldsAux cs []
      | _ => acc.reverse :: goFieldsAux cs []
    else goFieldsAux cs (c :: acc)

/-- Go `strings.Fields`: split around maximal runs of whitespace,
discarding empty fields. -/
def goFields (s : String) : List String :=
  (goFieldsAux s.toList []).map String.mk

/-- Split a character list at the first `':'`, returning the part before
it and the part after it, or `none` when there is no colon. -/
def splitFirstColon : List Char → Option (List Char × List Char)
  | [] => none
  | c :: cs =>
    if c = ':' then some ([], cs)
    else
      match splitFirstColon cs with
      | none => none
      | some (l, r) => some (c :: l, r)

/-- `goSplitNColon k cs` splits `cs` on at most `k` colons, so the result
has at most `k + 1` parts; the last part keeps any remaining colons.
`goSplitNColon 2` is Go `strings.SplitN(s, ":", 3)`. -/
def goSplitNColon : Nat → List Char → List (List Char)
  | 0, cs => [cs]
  | k + 1, cs =>
    match splitFirstColon cs with
    | none => [cs]
    | some (l, r) => l :: goSplitNColon k r

/-- Go `strings.SplitN(line, ":", 3)`. -/
def goSplitN3 (line : String) : List String :=
  (goSplitNColon 2 line.toList).map String.mk

/-- Worker for `goContains`: does `pat` occur as a contiguous sublist of
`s`? -/
def listContainsSub (s pat : List Char) : Bool :=
  match s with
  | [] => pat.isEmpty
  | _ :: rest => pat.isPrefixOf s || listContainsSub rest pat

/-- Go `strings.Contains`. -/
def goContains (s pat : String) : Bool :=
  listContainsSub s.toList pat.toList

/-- Accumulate a base-10 digit string into a `Nat`; `none` on any
non-digit character. -/
def digitsToNatAux : List Char → Nat → Option Nat
  | [], acc => some acc
  | c :: cs, acc =>
    if c.isDigit then digitsToNatAux cs (acc * 10 + (c.toNat - '0'.toNat))
    else none

/-- Parse a non-empty base-10 digit string; `none` when empty or when a
non-digit occurs. -/
def digitsToNat : List Char → Option Nat
  | [] => none
  | c :: cs => digitsToNatAux (c :: cs) 0

/-- The syntactic part of Go `strconv.ParseInt(s, 10, 64)`: optional
`+`/`-` sign followed by one or more base-10 digits; no range check. -/
def parseIntCore (s : String) : Option Int :=
  match s.toList with
  | [] => none
  | c :: rest =>
    if c = '-' then (digitsToNat rest).map (fun n => -(n : Int))
    else if c = '+' then (digitsToNat rest).map (fun n => (n : Int))
    else (digitsToNat (c :: rest)).map (fun n => (n : Int))

/-- Smallest value of Go's `int64`. -/
def int64Min : Int := -(2 ^ 63)

/-- Largest value of Go's `int64`. -/
def int64Max : Int := 2 ^ 63 - 1

/-- Go `strconv.ParseInt(s, 10, 64)` as used when the caller checks the
returned error: `none` on a syntax or range error. -/
def parseInt64 (s : String) : Option Int :=
  match parseIntCore s with
  | none => none
  | some v => if int64Min ≤ v ∧ v ≤ int64Max then some v else none

/-- The value component of Go `strconv.ParseInt(s, 10, 64)` when the
caller discards the error: `0` on a syntax error, the clamped extreme on
a range error. -/
def parseInt64Value (s : String) : Int :=
  match parseIntCore s with
  | none => 0
  | some v => if v < int64Min then int64Min else if int64Max < v then int64Max else v

/-- Go `uint64` subtraction `b - a` (wrap-around modulo `2^64`), for
`a, b < 2^64`. -/
def uint64Sub (b a : Nat) : Nat :=
  (b + 2 ^ 64 - a) % 2 ^ 64

namespace Web

/-- `cgroupV2Mountpoint` from `main.go`. -/
def cgroupV2Mountpoint : String := "/sys/fs/cgroup"

/-- `cgroupV1Mountpoint` from `main.go`. -/
def cgroupV1Mountpoint : String := "/sys/fs/cgroup/cpu,cpuacct"

/-- `filepath.Join(cgroupV2Mountpoint, "cgroup.controllers")`. -/
def cgroupControllersPath : String := "/sys/fs/cgroup/cgroup.controllers"

/-- `filepath.Join(cgroupV2Mountpoint, cpuMaxV2Filename)`. -/
def cpuMaxV2Path : String := "/sys/fs/cgroup/cpu.max"

/-- `filepath.Join(cgroupV2Mountpoint, cpuWeightV2Filename)`. -/
def cpuWeightV2Path : String := "/sys/fs/cgroup/cpu.weight"

/-- `filepath.Join(cgroupV1Mountpoint, cpuQuotaV1Filename)`. -/
def cpuQuotaV1Path : String := "/sys/fs/cgroup/cpu,cpuacct/cpu.cfs_quota_us"

/-- `filepath.Join(cgroupV1Mountpoint, cpuPeriodV1Filename)`. -/
def cpuPeriodV1Path : String := "/sys/fs/cgroup/cpu,cpuacct/cpu.cfs_period_us"

/-- `filepath.Join(cgroupV1Mountpoint, cpuSharesV1Filename)`. -/
def cpuSharesV1Path : String := "/sys/fs/cgroup/cpu,cpuacct/cpu.shares"

/-- The `CPUMax` field of `CgroupInfo`: `unset` is the Go zero value `""`;
`unlimitedMax` renders as `"unlimited (max)"`, `unlimitedNoQuota` as
`"unlimited (no quota)"`, and `micros n` as `"<n> microseconds"`. -/
inductive CPUMaxField
  | unset
  | unlimitedMax
  | unlimitedNoQuota
  | micros (n : Int)
deriving DecidableEq

/-- The `CPUPeriod` field: `rawMicros tok` is the v2 rendering
`"<tok> microseconds"` of the raw second token, `micros n` the v1
rendering of the parsed integer. -/
inductive PeriodField
  | unset
  | rawMicros (token : String)
  | micros (n : Int)
deriving DecidableEq

/-- A best-effort auxiliary field (`CPUShares`, `CPUWeight`): on a read
failure Go stores an inline `"Error reading <path>: ..."` string,
otherwise the trimmed file content. -/
inductive AuxField
  | unset
  | errorReading (path : String)
  | value (s : String)
deriving DecidableEq

/-- The `BurstableCPUPercentage` field: `naUnlimited` renders as
`"N/A (unlimited)"`, `naZeroPeriod` as `"N/A (CPU period is zero)"`, and
`pct v` as the two-decimal rendering of the float `v` (modelled
exactly in `ℚ`). -/
inductive BurstField
  | unset
  | naUnlimited
  | naZeroPeriod
  | pct (value : ℚ)
deriving DecidableEq

/-- Whether a burstable-percentage field is one of the `"N/A (...)"`
renderings. -/
def BurstField.isNA : BurstField → Bool
  | .naUnlimited => true
  | .naZeroPeriod => true
  | _ => false

/-- The `Error` field of `CgroupInfo`, by originating branch: which Go
`fmt.Sprintf` produced it and with which path (the wrapped I/O error
text is not modelled). -/
inductive ReportError
  | readError (path : String)
  | formatError (path content : String)
  | parseMaxError (path : String)
  | parsePeriodError (path : String)
  | parseQuotaError (path : String)
deriving DecidableEq

/-- The `CgroupInfo` record of `main.go`; string-rendered numeric fields
are kept structured so their provenance is provable. -/
structure CgroupInfo where
  cgroupVersion : String
  cpuMax : CPUMaxField := .unset
  cpuPeriod : PeriodField := .unset
  cpuShares : AuxField := .unset
  cpuWeight : AuxField := .unset
  burstable : BurstField := .unset
  error : Option ReportError := none
deriving DecidableEq

/-- `detectCgroupVersion` from `main.go`, over a stat predicate
(`st p = true` iff `os.Stat(p)` succeeds). -/
def detectCgroupVersion (st : String → Bool) : String :=
  if st cgroupControllersPath then "v2"
  else if st cpuQuotaV1Path then "v1"
  else "unknown"

/-- The trailing `cpu.weight` read of `getCPUMaxInfoV2`. -/
def setWeight (fs : FS) (info : CgroupInfo) : CgroupInfo :=
  match fs cpuWeightV2Path with
  | none => { info with cpuWeight := .errorReading cpuWeightV2Path }
  | some weightContent => { info with cpuWeight := .value (goTrimSpace weightContent) }

/-- `getCPUMaxInfoV2` from `main.go`. -/
def getCPUMaxInfoV2 (fs : FS) : CgroupInfo :=
  let info : CgroupInfo := { cgroupVersion := "v2" }
  match fs cpuMaxV2Path with
  | none => { info with error := some (.readError cpuMaxV2Path) }
  | some content =>
    match goFields content with
    | maxValueStr :: periodStr :: _ =>
      let info := { info with cpuPeriod := .rawMicros periodStr }
      if maxValueStr = "max" then
        setWeight fs { info with cpuMax := .unlimitedMax, burstable := .naUnlimited }
      else
        match parseInt64 maxValueStr with
        | none => { info with error := some (.parseMaxError cpuMaxV2Path) }
        | some maxValue =>
          let info := { info with cpuMax := .micros maxValue }
          match parseInt64 periodStr with
          | none => { info with error := some (.parsePeriodError cpuMaxV2Path) }
          | some period =>
            if 0 < period then
              setWeight fs
                { info with burstable := .pct ((maxValue : ℚ) / (period : ℚ) * 100) }
            else
              setWeight fs { info with burstable := .naZeroPeriod }
    | _ => { info with error := some (.formatError cpuMaxV2Path content) }

/-- `getCPUMaxInfoV1` from `main.go`. -/
def getCPUMaxInfoV1 (fs : FS) : CgroupInfo :=
  let info : CgroupInfo := { cgroupVersion := "v1" }
  match fs cpuQuotaV1Path with
  | none => { info with error := some (.readError cpuQuotaV1Path) }
  | some quotaContent =>
    match fs cpuPeriodV1Path with
    | none => { info with error := some (.readError cpuPeriodV1Path) }
    | some periodContent =>
      let info :=
        match fs cpuSharesV1Path with
        | none => { info with cpuShares := .errorReading cpuSharesV1Path }
        | some sharesContent => { info with cpuShares := .value (goTrimSpace sharesContent) }
      let quotaStr := goTrimSpace quotaContent
      let periodStr := goTrimSpace periodContent
      match parseInt64 periodStr with
      | none => { info with error := some (.parsePeriodError cpuPeriodV1Path) }
      | some period =>
        let info := { info with cpuPeriod := .micros period }
        match parseInt64 quotaStr with
        | none => { info with error := some (.parseQuotaError cpuQuotaV1Path) }
        | some quota =>
          if quota = -1 then
            { info with cpuMax := .unlimitedNoQuota, burstable := .naUnlimited }
          else
            { info with
              cpuMax := .micros quota,
              burstable :=
                if 0 < period then BurstField.pct ((quota : ℚ) / (period : ℚ) * 100)
                else BurstField.naZeroPeriod }

end Web

namespace Cli

/-- `cgroupV1Root` / `cgroupV2Root` from the CLI variant. -/
def cgroupRoot : String := "/sys/fs/cgroup"

/-- `filepath.Join(cgroupV2Root, "cgroup.controllers")`. -/
def cgroupControllersPath : String := "/sys/fs/cgroup/cgroup.controllers"

/-- `filepath.Join(cgroupV1Root, "cpu")`: the CLI variant's v1 marker. -/
def cpuV1MarkerPath : String := "/sys/fs/cgroup/cpu"

/-- The `CgroupVersion` enumeration of the CLI variant. -/
inductive CgroupVersion
  | unknownCgroup
  | cgroupV1
  | cgroupV2
deriving DecidableEq

/-- `detectCgroupVersion` from the CLI variant, over a stat predicate
(`st p = true` iff `os.Stat(p)` succeeds). -/
def detectCgroupVersion (st : String → Bool) : CgroupVersion :=
  if st cgroupControllersPath then .cgroupV2
  else if st cpuV1MarkerPath then .cgroupV1
  else .unknownCgroup

/-- `parseCgroupLine` from the CLI variant: split a `/proc/self/cgroup`
line on the first two colons; anything but exactly three parts yields
`("", "")`. -/
def parseCgroupLine (line : String) : String × String :=
  match goSplitN3 line with
  | [_, controllers, path] => (controllers, path)
  | _ => ("", "")

/-- The `cgroupPaths` map built by the CLI variant's `main` (keys
`"cpu"`, `"memory"`, `"unified"`; a `none` field means the key is
absent). -/
structure ControllerPathMap where
  cpu : Option String := none
  memory : Option String := none
  unified : Option String := none
deriving DecidableEq

/-- One iteration of the `/proc/self/cgroup` scan loop in the CLI
variant's `main` (the loop only runs for v1 or v2; `unknownCgroup` makes
the program exit before it). -/
def resolveStep (ver : CgroupVersion) (m : ControllerPathMap) (line : String) :
    ControllerPathMap :=
  let cp := parseCgroupLine line
  match ver with
  | .cgroupV1 =>
    let m1 := if goContains cp.1 "cpu" then { m with cpu := some cp.2 } else m
    if goContains cp.1 "memory" then { m1 with memory := some cp.2 } else m1
  | .cgroupV2 =>
    if m.unified = none ∧ cp.2 ≠ "/" then { m with unified := some cp.2 } else m
  | .unknownCgroup => m

/-- The full `/proc/self/cgroup` scan of the CLI variant's `main`, over
the file's lines. -/
def resolveCgroupPaths (ver : CgroupVersion) (lines : List String) :
    ControllerPathMap :=
  lines.foldl (resolveStep ver) {}

/-- The `cpuLimitCores` value after the CLI variant's v2 `cpu.max` block
(source lines 245–257), given the trimmed content of `cpu.max`.  Go's
`strconv.ParseInt` errors are discarded there, so a non-numeric token
contributes the value `0`; the initial `-1.0` sentinel ("no limit
found") survives unless the content has exactly two fields, a quota
different from `-1`, and a positive period. -/
def cpuLimitCoresV2 (content : String) : ℚ :=
  match goFields content with
  | [quotaStr, periodStr] =>
    let quota := parseInt64Value quotaStr
    let period := parseInt64Value periodStr
    if quota ≠ -1 ∧ 0 < period then (quota : ℚ) / (period : ℚ) else -1
  | _ => -1

/-- `samplePeriod.Nanoseconds()` for the constant `samplePeriod = 2 *
time.Second`. -/
def samplePeriodNanoseconds : ℕ := 2000000000

/-- `samplePeriod.Microseconds()` for the constant `samplePeriod = 2 *
time.Second`. -/
def samplePeriodMicroseconds : ℕ := 2000000

/-- `actualCPUUsageCores` in the CLI variant's v1 branch: the `uint64`
difference of two cumulative `cpuacct.usage` readings (nanoseconds)
divided by the nominal sampling interval in nanoseconds. -/
def actualCPUUsageCoresV1 (usage1 usage2 : ℕ) : ℚ :=
  (uint64Sub usage2 usage1 : ℚ) / (samplePeriodNanoseconds : ℚ)

/-- `actualCPUUsageCores` in the CLI variant's v2 branch: the `uint64`
difference of two cumulative `usage_usec` readings (microseconds)
divided by the nominal sampling interval in microseconds. -/
def actualCPUUsageCoresV2 (usage1 usage2 : ℕ) : ℚ :=
  (uint64Sub usage2 usage1 : ℚ) / (samplePeriodMicroseconds : ℚ)

/-- What the CLI variant prints for utilization-of-limit. -/
inductive UtilizationReport
  | cannotCalculate
  | pct (value : ℚ)
deriving DecidableEq

/-- The utilization-of-limit step of the CLI variant's `main`: a
percentage only when `cpuLimitCores > 0`, otherwise the "Cannot
calculate CPU Utilization of Limit" message (the limit starts at the
`-1.0` sentinel and stays there when no finite limit is found). -/
def utilizationOfLimit (actualCPUUsageCores cpuLimitCores : ℚ) : UtilizationReport :=
  if 0 < cpuLimitCores then .pct (actualCPUUsageCores / cpuLimitCores * 100)
  else .cannotCalculate

end Cli

/-! Test-double filesystems used to instantiate the theorems below on
concrete states. -/

/-- A v2 state: `cpu.max` holds `"50000 100000"`, `cpu.weight` holds
`"100"`. -/
def fsV2Good : FS := fun p =>
  if p = Web.cpuMaxV2Path then some "50000 100000"
  else if p = Web.cpuWeightV2Path then some "100"
  else none

/-- A v1 state with a finite quota. -/
def fsV1Good : FS := fun p =>
  if p = Web.cpuQuotaV1Path then some "50000"
  else if p = Web.cpuPeriodV1Path then some "100000"
  else if p = Web.cpuSharesV1Path then some "1024"
  else none

/-- A v1 state with the `-1` unlimited-quota sentinel. -/
def fsV1Unlimited : FS := fun p =>
  if p = Web.cpuQuotaV1Path then some "-1"
  else if p = Web.cpuPeriodV1Path then some "100000"
  else if p = Web.cpuSharesV1Path then some "1024"
  else none

/-- A v1 state where the quota file reads `-1` but the period file is
unreadable. -/
def fsV1QuotaNoPeriod : FS := fun p =>
  if p = Web.cpuQuotaV1Path then some "-1"
  else if p = Web.cpuSharesV1Path then some "1024"
  else none

/-- A v2 state whose `cpu.max` quota token is not numeric and not
`"max"`. -/
def fsV2BadQuotaToken : FS := fun p =>
  if p = Web.cpuMaxV2Path then some "abc 100000" else none

/-- A v2 state whose `cpu.max` holds a single token. -/
def fsV2ShortContent : FS := fun p =>
  if p = Web.cpuMaxV2Path then some "max" else none

/-- A state where both the v2 and the v1 CPU files carry a numeric quota
with a zero period. -/
def fsZeroPeriod : FS := fun p =>
  if p = Web.cpuMaxV2Path then some "50000 0"
  else if p = Web.cpuQuotaV1Path then some "50000"
  else if p = Web.cpuPeriodV1Path then some "0"
  else if p = Web.cpuSharesV1Path then some "1024"
  else none

/-- A stat predicate under which every marker file exists (v2 and v1
markers simultaneously present). -/
def allMarkers : String → Bool := fun _ => true

/-! Helper lemmas shared by the claim theorems. -/

/-- When the error-checked `ParseInt` succeeds, the error-discarding call
returns the same value. -/
theorem parseInt64Value_eq {s : String} {v : Int} (h : parseInt64 s = some v) :
    parseInt64Value s = v := by
  unfold parseInt64 at h
  unfold parseInt64Value
  split at h
  · exact absurd h (by simp)
  · next w heq =>
    split at h
    · next hr =>
      have hw : w = v := by injection h
      subst hw
      rw [if_neg (by omega), if_neg (by omega)]
    · exact absurd h (by simp)

/-- `uint64Sub` is plain subtraction when no wrap-around occurs. -/
theorem uint64Sub_of_le {a b : ℕ} (hab : a ≤ b) (hb : b < 2 ^ 64) :
    uint64Sub b a = b - a := by
  unfold uint64Sub
  have h1 : b + 2 ^ 64 - a = (b - a) + 2 ^ 64 := by omega
  rw [h1, Nat.add_mod_right]
  exact Nat.mod_eq_of_lt (by omega)

/-- `uint64Sub` wraps around when the second reading is smaller. -/
theorem uint64Sub_of_lt {a b : ℕ} (hba : b < a) (ha : a < 2 ^ 64) :
    uint64Sub b a = 2 ^ 64 - (a - b) := by
  unfold uint64Sub
  have h1 : b + 2 ^ 64 - a = 2 ^ 64 - (a - b) := by omega
  rw [h1]
  exact Nat.mod_eq_of_lt (by omega)

/-- Claim C2: whenever the v2 marker file `cgroup.controllers` exists
under the cgroup mount, both programs' version detection returns v2 no
matter what other markers exist; the v1 marker is consulted only when the
v2 marker is absent, and with neither marker detection returns unknown. -/
theorem detect_prefers_v2_marker (st : String → Bool) :
    (st Web.cgroupControllersPath = true →
      Web.detectCgroupVersion st = "v2" ∧
      Cli.detectCgroupVersion st = .cgroupV2) ∧
    (st Web.cgroupControllersPath = false →
      (Web.detectCgroupVersion st = "v1" ↔ st Web.cpuQuotaV1Path = true) ∧
      (Cli.detectCgroupVersion st = .cgroupV1 ↔ st Cli.cpuV1MarkerPath = true) ∧
      (st Web.cpuQuotaV1Path = false → Web.detectCgroupVersion st = "unknown") ∧
      (st Cli.cpuV1MarkerPath = false →
        Cli.detectCgroupVersion st = .unknownCgroup)) := by
  have hsame : Cli.cgroupControllersPath = Web.cgroupControllersPath := rfl
  constructor
  · intro h
    constructor
    · simp [Web.detectCgroupVersion, h]
    · simp [Cli.detectCgroupVersion, hsame, h]
  · intro h
    refine ⟨?_, ?_, ?_, ?_⟩
    · cases h1 : st Web.cpuQuotaV1Path <;>
        simp [Web.detectCgroupVersion, h, h1]
    · cases h1 : st Cli.cpuV1MarkerPath <;>
        simp [Cli.detectCgroupVersion, hsame, h, h1]
    · intro h1; simp [Web.detectCgroupVersion, h, h1]
    · intro h1; simp [Cli.detectCgroupVersion, hsame, h, h1]

/-- Witness for C2: with every marker present (v2 and v1 markers
simultaneously), both programs detect v2. -/
theorem detect_prefers_v2_marker_witness :
    Web.detectCgroupVersion allMarkers = "v2" ∧
    Cli.detectCgroupVersion allMarkers = .cgroupV2 :=
  (detect_prefers_v2_marker allMarkers).1 rfl

/-- Claim C7: for readings `a` then `b` of the cumulative usage counter
(`uint64`, so below `2^64`), utilization in cores is `(b - a)` divided by
the configured nominal sampling interval expressed in the counter's own
unit — nanoseconds for v1, microseconds for v2 — and two identical
readings yield exactly `0` cores. -/
theorem sampler_nominal_interval (a b : ℕ) (hab : a ≤ b) (hb : b < 2 ^ 64) :
    Cli.actualCPUUsageCoresV1 a b =
      ((b : ℚ) - (a : ℚ)) / (Cli.samplePeriodNanoseconds : ℚ) ∧
    Cli.actualCPUUsageCoresV2 a b =
      ((b : ℚ) - (a : ℚ)) / (Cli.samplePeriodMicroseconds : ℚ) ∧
    (b = a → Cli.actualCPUUsageCoresV1 a b = 0 ∧
      Cli.actualCPUUsageCoresV2 a b = 0) := by
  have hsub : uint64Sub b a = b - a := uint64Sub_of_le hab hb
  have hcast : ((b - a : ℕ) : ℚ) = (b : ℚ) - (a : ℚ) := by
    push_cast [hab]
    ring
  refine ⟨?_, ?_, ?_⟩
  · unfold Cli.actualCPUUsageCoresV1
    rw [hsub, hcast]
  · unfold Cli.actualCPUUsageCoresV2
    rw [hsub, hcast]
  · intro hba
    subst hba
    unfold Cli.actualCPUUsageCoresV1 Cli.actualCPUUsageCoresV2
    rw [hsub]
    simp

/-- Witness for C7: two identical readings give zero cores. -/
theorem sampler_nominal_interval_witness :
    Cli.actualCPUUsageCoresV1 100 100 = 0 ∧
    Cli.actualCPUUsageCoresV2 100 100 = 0 :=
  (sampler_nominal_interval 100 100 (le_refl 100) (by norm_num)).2.2 rfl

/-- Claim C8: the utilization-of-limit percentage is
`usage / limit * 100` whenever a finite positive core limit was
established, and the "cannot calculate" message is reported whenever the
limit is not positive (which includes the untouched `-1` no-limit-found
sentinel). -/
theorem utilization_of_limit_formula (u l : ℚ) :
    (0 < l → Cli.utilizationOfLimit u l = .pct (u / l * 100)) ∧
    (l ≤ 0 → Cli.utilizationOfLimit u l = .cannotCalculate) := by
  constructor
  · intro h
    simp [Cli.utilizationOfLimit, h]
  · intro h
    simp [Cli.utilizationOfLimit, not_lt.mpr h]

/-- Witness for C8: limit 1.0 core with usage 0.5 core gives 50%, and the
`-1` no-limit sentinel gives "cannot calculate". -/
theorem utilization_of_limit_formula_witness :
    Cli.utilizationOfLimit (1 / 2) 1 = .pct 50 ∧
    Cli.utilizationOfLimit (1 / 2) (-1) = .cannotCalculate := by
  constructor
  · rw [(utilization_of_limit_formula (1 / 2) 1).1 (by norm_num)]
    congr 1
    norm_num
  · exact (utilization_of_limit_formula (1 / 2) (-1)).2 (by norm_num)

/-- Claim C10: the sampler's utilization value is nonnegative for every
pair of readings; when the second reading is smaller the `uint64`
subtraction wraps around modulo `2^64`, so a strictly positive (typically
enormous) value is reported rather than a negative one or an error. -/
theorem usage_delta_wraps_nonneg (a b : ℕ) :
    0 ≤ Cli.actualCPUUsageCoresV1 a b ∧ 0 ≤ Cli.actualCPUUsageCoresV2 a b ∧
    (b < a → a < 2 ^ 64 →
      Cli.actualCPUUsageCoresV1 a b =
        ((2 ^ 64 - (a - b) : ℕ) : ℚ) / (Cli.samplePeriodNanoseconds : ℚ) ∧
      0 < Cli.actualCPUUsageCoresV1 a b ∧
      0 < Cli.actualCPUUsageCoresV2 a b) := by
  refine ⟨?_, ?_, ?_⟩
  · exact div_nonneg (Nat.cast_nonneg _) (by norm_num [Cli.samplePeriodNanoseconds])
  · exact div_nonneg (Nat.cast_nonneg _) (by norm_num [Cli.samplePeriodMicroseconds])
  · intro hba ha
    have hsub : uint64Sub b a = 2 ^ 64 - (a - b) := uint64Sub_of_lt hba ha
    have hpos : 0 < ((uint64Sub b a : ℕ) : ℚ) := by
      rw [hsub]
      exact_mod_cast Nat.sub_pos_of_lt (by omega)
    refine ⟨?_, ?_, ?_⟩
    · unfold Cli.actualCPUUsageCoresV1
      rw [hsub]
    · exact div_pos hpos (by norm_num [Cli.samplePeriodNanoseconds])
    · exact div_pos hpos (by norm_num [Cli.samplePeriodMicroseconds])

/-- Witness for C10: a reset counter (second reading smaller) yields a
strictly positive utilization value. -/
theorem usage_delta_wraps_nonneg_witness :
    0 < Cli.actualCPUUsageCoresV1 5 3 ∧ 0 < Cli.actualCPUUsageCoresV2 5 3 :=
  ⟨((usage_delta_wraps_nonneg 5 3).2.2 (by norm_num) (by norm_num)).2.1,
   ((usage_delta_wraps_nonneg 5 3).2.2 (by norm_num) (by norm_num)).2.2⟩

/-- Claim C6: for every readable v2 `cpu.max` content whose
whitespace tokenization has fewer than two tokens, the report's error
field is set to the unexpected-format error and no CPU metric field is
derived from the content. -/
theorem cpu_max_v2_format_error (fs : FS) (content : String)
    (hread : fs Web.cpuMaxV2Path = some content)
    (hshort : (goFields content).length < 2) :
    (Web.getCPUMaxInfoV2 fs).error =
      some (.formatError Web.cpuMaxV2Path content) ∧
    (Web.getCPUMaxInfoV2 fs).cpuMax = .unset ∧
    (Web.getCPUMaxInfoV2 fs).cpuPeriod = .unset ∧
    (Web.getCPUMaxInfoV2 fs).burstable = .unset ∧
    (Web.getCPUMaxInfoV2 fs).cpuWeight = .unset := by
  rcases hf : goFields content with _ | ⟨a, _ | ⟨b, tl⟩⟩
  · simp [Web.getCPUMaxInfoV2, hread, hf]
  · simp [Web.getCPUMaxInfoV2, hread, hf]
  · rw [hf] at hshort
    simp at hshort
    omega

/-- Witness for C6: a `cpu.max` holding the single token `"max"` is a
format error and yields no metrics. -/
theorem cpu_max_v2_format_error_witness :
    (Web.getCPUMaxInfoV2 fsV2ShortContent).error =
      some (.formatError Web.cpuMaxV2Path "max") ∧
    (Web.getCPUMaxInfoV2 fsV2ShortContent).cpuMax = .unset ∧
    (Web.getCPUMaxInfoV2 fsV2ShortContent).cpuPeriod = .unset ∧
    (Web.getCPUMaxInfoV2 fsV2ShortContent).burstable = .unset ∧
    (Web.getCPUMaxInfoV2 fsV2ShortContent).cpuWeight = .unset :=
  cpu_max_v2_format_error fsV2ShortContent "max" rfl (by decide)

/-- Counterexample to claim C1 as stated: `cpu.max` content
`"-1 100000"` has a numeric quota (`-1`) and a positive period, yet the
CLI variant's equivalent-cores limit is left at the `-1` no-limit
sentinel instead of `quota/period = -1/100000`, because the code guards
the computation with `quota != -1`. -/
theorem cpu_max_v2_cores_counterexample :
    goFields "-1 100000" = ["-1", "100000"] ∧
    parseInt64 "-1" = some (-1) ∧
    parseInt64 "100000" = some 100000 ∧
    (0 : Int) < 100000 ∧
    Cli.cpuLimitCoresV2 "-1 100000" = -1 ∧
    ¬ Cli.cpuLimitCoresV2 "-1 100000" = (-1 : ℚ) / 100000 := by
  have hlim : Cli.cpuLimitCoresV2 "-1 100000" = -1 := by
    simp [Cli.cpuLimitCoresV2,
      show goFields "-1 100000" = ["-1", "100000"] from by decide,
      show parseInt64Value "-1" = -1 from by decide]
  refine ⟨by decide, by decide, by decide, by decide, hlim, ?_⟩
  rw [hlim]
  norm_num

/-- Claim C1 (amended): for v2 `cpu.max` content tokenizing to
`<quota> <period> ...`, the quota token `"max"` makes the web report
state CPU max as unlimited and the burstable percentage as N/A
regardless of the period token; for a numeric quota with positive
period the burstable percentage is `quota/period*100`, and the CLI
variant's equivalent-cores limit is `quota/period` except for the exact
quota `-1`, which it treats as the no-limit sentinel. -/
theorem cpu_max_v2_report (fs : FS) (content qs ps : String)
    (rest : List String)
    (hread : fs Web.cpuMaxV2Path = some content)
    (hfields : goFields content = qs :: ps :: rest) :
    (qs = "max" →
      (Web.getCPUMaxInfoV2 fs).cpuMax = .unlimitedMax ∧
      (Web.getCPUMaxInfoV2 fs).burstable = .naUnlimited) ∧
    (∀ q per : Int, parseInt64 qs = some q → parseInt64 ps = some per →
      0 < per →
      (Web.getCPUMaxInfoV2 fs).burstable = .pct ((q : ℚ) / (per : ℚ) * 100) ∧
      (rest = [] → q ≠ -1 →
        Cli.cpuLimitCoresV2 content = (q : ℚ) / (per : ℚ)) ∧
      (rest = [] → q = -1 → Cli.cpuLimitCoresV2 content = -1)) := by
  constructor
  · intro hmax
    subst hmax
    cases hw : fs Web.cpuWeightV2Path <;>
      simp [Web.getCPUMaxInfoV2, Web.setWeight, hread, hfields, hw]
  · intro q per hq hp hper
    have hqs : qs ≠ "max" := by
      intro h
      rw [h, show parseInt64 "max" = none from by decide] at hq
      exact Option.noConfusion hq
    refine ⟨?_, ?_, ?_⟩
    · cases hw : fs Web.cpuWeightV2Path <;>
        simp [Web.getCPUMaxInfoV2, Web.setWeight, hread, hfields, hqs, hq,
          hp, hper, hw]
    · intro hrest hqne
      subst hrest
      simp [Cli.cpuLimitCoresV2, hfields, parseInt64Value_eq hq,
        parseInt64Value_eq hp, hqne, hper]
    · intro hrest hqeq
      subst hrest
      subst hqeq
      simp [Cli.cpuLimitCoresV2, hfields, parseInt64Value_eq hq,
        parseInt64Value_eq hp]

/-- Witness for C1: the end-to-end v2 scenario `cpu.max = "50000
100000"` gives burstable percentage 50 and an equivalent-cores limit of
one half. -/
theorem cpu_max_v2_report_witness :
    (Web.getCPUMaxInfoV2 fsV2Good).burstable = .pct 50 ∧
    Cli.cpuLimitCoresV2 "50000 100000" = 1 / 2 := by
  have h := (cpu_max_v2_report fsV2Good "50000 100000" "50000" "100000" []
      rfl (by decide)).2 50000 100000 (by decide) (by decide) (by decide)
  constructor
  · rw [h.1]
    congr 1
    norm_num
  · rw [h.2.1 rfl (by decide)]
    norm_num

/-- Counterexample to claim C3 as stated: under v2 the malformed line
`"0:foo"` (two colon-separated fields) is not skipped — it is recorded
as the `"unified"` entry with the empty path, and the valid line
`"0::/mypath"` that follows is consequently ignored. -/
theorem malformed_line_counterexample :
    (goSplitN3 "0:foo").length ≠ 3 ∧
    (Cli.resolveCgroupPaths .cgroupV2 ["0:foo", "0::/mypath"]).unified =
      some "" ∧
    Cli.parseCgroupLine "0::/mypath" = ("", "/mypath") ∧
    ("" : String) ≠ "/mypath" := by decide

/-- Claim C3 (amended): a `/proc/self/cgroup` line with fewer than three
colon-separated fields parses to the empty controller/path pair; under
v1 it contributes nothing to the controller-path map and a valid
subsequent line is still processed, but under v2 (when no unified entry
exists yet) the empty path — being different from `"/"` — is itself
recorded as the `"unified"` entry. -/
theorem malformed_line_amended (line : String)
    (hmal : (goSplitN3 line).length ≠ 3) :
    Cli.parseCgroupLine line = ("", "") ∧
    (∀ m, Cli.resolveStep .cgroupV1 m line = m) ∧
    (∀ rest, Cli.resolveCgroupPaths .cgroupV1 (line :: rest) =
      Cli.resolveCgroupPaths .cgroupV1 rest) ∧
    (∀ m, m.unified = none →
      (Cli.resolveStep .cgroupV2 m line).unified = some "") := by
  have hline : Cli.parseCgroupLine line = ("", "") := by
    unfold Cli.parseCgroupLine
    rcases hsp : goSplitN3 line with _ | ⟨a, _ | ⟨b, _ | ⟨c, _ | ⟨d, tl⟩⟩⟩⟩
    · rfl
    · rfl
    · rfl
    · rw [hsp] at hmal
      simp at hmal
    · rfl
  have hstep1 : ∀ m, Cli.resolveStep .cgroupV1 m line = m := by
    intro m
    simp [Cli.resolveStep, hline,
      show goContains "" "cpu" = false from rfl,
      show goContains "" "memory" = false from rfl]
  refine ⟨hline, hstep1, ?_, ?_⟩
  · intro rest
    unfold Cli.resolveCgroupPaths
    rw [List.foldl_cons, hstep1]
  · intro m hm
    simp [Cli.resolveStep, hline, hm,
      show ("" : String) ≠ "/" from by decide]

/-- Witness for the amended C3: the malformed line `"0:foo"` parses to
the empty pair and, under v1, dropping it from the front of the line
list does not change the resolved map. -/
theorem malformed_line_amended_witness :
    Cli.parseCgroupLine "0:foo" = ("", "") ∧
    Cli.resolveCgroupPaths .cgroupV1 ["0:foo", "3:cpu,cpuacct:/a"] =
      Cli.resolveCgroupPaths .cgroupV1 ["3:cpu,cpuacct:/a"] := by
  have h := malformed_line_amended "0:foo" (by decide)
  exact ⟨h.1, h.2.2.1 ["3:cpu,cpuacct:/a"]⟩

/-- Claim C4: a numeric quota together with a non-positive parsed period
makes both the v2 and the v1 parser report the burstable percentage as
an `"N/A"` rendering (the division `quota/period` is never reached). -/
theorem zero_period_reports_na (fs : FS) (content qs ps : String)
    (rest : List String) (q per : Int) (qc pc : String) (q1 p1 : Int)
    (hr2 : fs Web.cpuMaxV2Path = some content)
    (hf : goFields content = qs :: ps :: rest)
    (hq : parseInt64 qs = some q)
    (hp : parseInt64 ps = some per) (hper : per ≤ 0)
    (hr1q : fs Web.cpuQuotaV1Path = some qc)
    (hr1p : fs Web.cpuPeriodV1Path = some pc)
    (hp1 : parseInt64 (goTrimSpace pc) = some p1) (hp1n : p1 ≤ 0)
    (hq1 : parseInt64 (goTrimSpace qc) = some q1) :
    (Web.getCPUMaxInfoV2 fs).burstable = .naZeroPeriod ∧
    ((Web.getCPUMaxInfoV2 fs).burstable).isNA = true ∧
    ((Web.getCPUMaxInfoV1 fs).burstable).isNA = true := by
  have hqs : qs ≠ "max" := by
    intro h
    rw [h, show parseInt64 "max" = none from by decide] at hq
    exact Option.noConfusion hq
  have hpn : ¬ (0 < per) := not_lt.mpr hper
  have hpn1 : ¬ (0 < p1) := not_lt.mpr hp1n
  have hv2 : (Web.getCPUMaxInfoV2 fs).burstable = .naZeroPeriod := by
    cases hw : fs Web.cpuWeightV2Path <;>
      simp [Web.getCPUMaxInfoV2, Web.setWeight, hr2, hf, hqs, hq, hp, hpn, hw]
  refine ⟨hv2, by rw [hv2]; rfl, ?_⟩
  by_cases hq1e : q1 = -1
  · cases hs : fs Web.cpuSharesV1Path <;>
      simp [Web.getCPUMaxInfoV1, Web.BurstField.isNA, hr1q, hr1p, hs, hp1,
        hq1, hq1e]
  · cases hs : fs Web.cpuSharesV1Path <;>
      simp [Web.getCPUMaxInfoV1, Web.BurstField.isNA, hr1q, hr1p, hs, hp1,
        hq1, hq1e, hpn1]

/-- Witness for C4: a state whose v2 `cpu.max` is `"50000 0"` and whose
v1 quota/period files read `50000` and `0` reports N/A burstable
percentages in both parsers. -/
theorem zero_period_reports_na_witness :
    (Web.getCPUMaxInfoV2 fsZeroPeriod).burstable = .naZeroPeriod ∧
    ((Web.getCPUMaxInfoV2 fsZeroPeriod).burstable).isNA = true ∧
    ((Web.getCPUMaxInfoV1 fsZeroPeriod).burstable).isNA = true :=
  zero_period_reports_na fsZeroPeriod "50000 0" "50000" "0" [] 50000 0
    "50000" "0" 50000 0 rfl (by decide) (by decide) (by decide) (by decide)
    rfl rfl (by decide) (by decide) (by decide)

/-- Counterexample to claim C5 as stated: a v1 state where
`cpu.cfs_quota_us` reads `-1` and `cpu.shares` is readable, but
`cpu.cfs_period_us` is unreadable: the report carries a read error, CPU
max is not reported as unlimited, and the shares field is not populated
either (the function returns before reading it). -/
theorem v1_unlimited_quota_counterexample :
    fsV1QuotaNoPeriod Web.cpuQuotaV1Path = some "-1" ∧
    fsV1QuotaNoPeriod Web.cpuSharesV1Path = some "1024" ∧
    (Web.getCPUMaxInfoV1 fsV1QuotaNoPeriod).error =
      some (.readError Web.cpuPeriodV1Path) ∧
    (Web.getCPUMaxInfoV1 fsV1QuotaNoPeriod).cpuMax = .unset ∧
    (Web.getCPUMaxInfoV1 fsV1QuotaNoPeriod).cpuShares = .unset := by decide

/-- Claim C5 (amended): for every v1 state where `cpu.cfs_quota_us`
reads (after trimming) as `-1` and `cpu.cfs_period_us` is readable and
parses as an integer, the report states CPU max as unlimited and the
burstable percentage as N/A, and the CPU shares field is populated with
the trimmed `cpu.shares` content when that file is readable, or with an
inline read-error marker when it is not — independently of the quota
value. -/
theorem v1_unlimited_quota_amended (fs : FS) (qc pc : String) (per : Int)
    (hq : fs Web.cpuQuotaV1Path = some qc)
    (hqv : parseInt64 (goTrimSpace qc) = some (-1))
    (hp : fs Web.cpuPeriodV1Path = some pc)
    (hpv : parseInt64 (goTrimSpace pc) = some per) :
    (Web.getCPUMaxInfoV1 fs).cpuMax = .unlimitedNoQuota ∧
    (Web.getCPUMaxInfoV1 fs).burstable = .naUnlimited ∧
    (∀ sc, fs Web.cpuSharesV1Path = some sc →
      (Web.getCPUMaxInfoV1 fs).cpuShares = .value (goTrimSpace sc)) ∧
    (fs Web.cpuSharesV1Path = none →
      (Web.getCPUMaxInfoV1 fs).cpuShares = .errorReading Web.cpuSharesV1Path) := by
  refine ⟨?_, ?_, ?_, ?_⟩
  · cases hs : fs Web.cpuSharesV1Path <;>
      simp [Web.getCPUMaxInfoV1, hq, hp, hs, hpv, hqv]
  · cases hs : fs Web.cpuSharesV1Path <;>
      simp [Web.getCPUMaxInfoV1, hq, hp, hs, hpv, hqv]
  · intro sc hs
    simp [Web.getCPUMaxInfoV1, hq, hp, hs, hpv, hqv]
  · intro hs
    simp [Web.getCPUMaxInfoV1, hq, hp, hs, hpv, hqv]

/-- Witness for the amended C5: the end-to-end v1 scenario with quota
`-1`, period `100000` and shares `1024`. -/
theorem v1_unlimited_quota_amended_witness :
    (Web.getCPUMaxInfoV1 fsV1Unlimited).cpuMax = .unlimitedNoQuota ∧
    (Web.getCPUMaxInfoV1 fsV1Unlimited).burstable = .naUnlimited ∧
    (Web.getCPUMaxInfoV1 fsV1Unlimited).cpuShares = .value "1024" := by
  have h := v1_unlimited_quota_amended fsV1Unlimited "-1" "100000" 100000
    rfl (by decide) rfl (by decide)
  exact ⟨h.1, h.2.1, h.2.2.1 "1024" rfl⟩

/-- Counterexample to claim C9 as stated: a v2 state whose `cpu.max`
reads `"abc 100000"` produces a report that carries both a set error
field (the quota-parse error) and a populated CPU period metric — the
period field is assigned before quota parsing fails. -/
theorem report_error_and_metrics_counterexample :
    (Web.getCPUMaxInfoV2 fsV2BadQuotaToken).error =
      some (.parseMaxError Web.cpuMaxV2Path) ∧
    (Web.getCPUMaxInfoV2 fsV2BadQuotaToken).cpuPeriod =
      .rawMicros "100000" ∧
    (Web.getCPUMaxInfoV2 fsV2BadQuotaToken).cpuPeriod ≠ .unset := by decide

/-- Claim C9 (amended): a report with an empty error field always has
its metric fields populated, but the converse exclusivity fails: a
report whose error field is set may still carry the metric fields that
were assigned before the error was detected (the v2 period on a
quota-parse failure, the v1 shares on a parse failure). -/
theorem report_error_vs_metrics_amended (fs : FS) :
    ((Web.getCPUMaxInfoV2 fs).error = none →
      (Web.getCPUMaxInfoV2 fs).cpuMax ≠ .unset ∧
      (Web.getCPUMaxInfoV2 fs).cpuPeriod ≠ .unset ∧
      (Web.getCPUMaxInfoV2 fs).burstable ≠ .unset ∧
      (Web.getCPUMaxInfoV2 fs).cpuWeight ≠ .unset) ∧
    ((Web.getCPUMaxInfoV1 fs).error = none →
      (Web.getCPUMaxInfoV1 fs).cpuMax ≠ .unset ∧
      (Web.getCPUMaxInfoV1 fs).cpuPeriod ≠ .unset ∧
      (Web.getCPUMaxInfoV1 fs).burstable ≠ .unset ∧
      (Web.getCPUMaxInfoV1 fs).cpuShares ≠ .unset) := by
  constructor
  · cases h1 : fs Web.cpuMaxV2Path with
    | none => simp [Web.getCPUMaxInfoV2, h1]
    | some content =>
      rcases hf : goFields content with _ | ⟨a, _ | ⟨b, tl⟩⟩
      · simp [Web.getCPUMaxInfoV2, h1, hf]
      · simp [Web.getCPUMaxInfoV2, h1, hf]
      · by_cases hmax : a = "max"
        · cases hw : fs Web.cpuWeightV2Path <;>
            simp [Web.getCPUMaxInfoV2, Web.setWeight, h1, hf, hmax, hw]
        · cases hq : parseInt64 a with
          | none => simp [Web.getCPUMaxInfoV2, h1, hf, hmax, hq]
          | some q =>
            cases hp : parseInt64 b with
            | none => simp [Web.getCPUMaxInfoV2, h1, hf, hmax, hq, hp]
            | some per =>
              by_cases hper : 0 < per <;>
                cases hw : fs Web.cpuWeightV2Path <;>
                  simp [Web.getCPUMaxInfoV2, Web.setWeight, h1, hf, hmax,
                    hq, hp, hper, hw]
  · cases h1 : fs Web.cpuQuotaV1Path with
    | none => simp [Web.getCPUMaxInfoV1, h1]
    | some qc =>
      cases h2 : fs Web.cpuPeriodV1Path with
      | none => simp [Web.getCPUMaxInfoV1, h1, h2]
      | some pc =>
        cases hpv : parseInt64 (goTrimSpace pc) with
        | none =>
          cases hs : fs Web.cpuSharesV1Path <;>
            simp [Web.getCPUMaxInfoV1, h1, h2, hs, hpv]
        | some per =>
          cases hqv : parseInt64 (goTrimSpace qc) with
          | none =>
            cases hs : fs Web.cpuSharesV1Path <;>
              simp [Web.getCPUMaxInfoV1, h1, h2, hs, hpv, hqv]
          | some q =>
            by_cases hq1 : q = -1 <;>
              by_cases hper : 0 < per <;>
                cases hs : fs Web.cpuSharesV1Path <;>
                  simp [Web.getCPUMaxInfoV1, h1, h2, hs, hpv, hqv, hq1, hper]

/-- Witness for the amended C9: the error-free v2 report over
`fsV2Good` and the error-free v1 report over `fsV1Good` have all their
metric fields populated. -/
theorem report_error_vs_metrics_amended_witness :
    (Web.getCPUMaxInfoV2 fsV2Good).cpuMax ≠ .unset ∧
    (Web.getCPUMaxInfoV1 fsV1Good).cpuMax ≠ .unset ∧
    (Web.getCPUMaxInfoV1 fsV1Good).cpuShares ≠ .unset := by
  have h2 := (report_error_vs_metrics_amended fsV2Good).1 (by decide)
  have h1 := (report_error_vs_metrics_amended fsV1Good).2 (by decide)
  exact ⟨h2.1, h1.1, h1.2.2.2⟩
